import Mathlib

/-!
Verification of the CogniRead scoring engine (services/scoringService.ts)
against its natural-language specification.

The TypeScript source is shallowly embedded: JavaScript numbers are
modelled as exact rationals extended with the IEEE special values
(NaN, +Infinity, -Infinity) where the code can actually produce them,
strings as Lean `String`, arrays as `List`.  The one real-valued
operation, `Math.sqrt` in the reliable-change computation, is modelled
with `Real.sqrt`.
-/

namespace CogniRead

/-- Model of a JavaScript number as produced by the scoring engine:
an exact rational, or one of the IEEE special values the engine's
divisions can yield.  (Rationals stand in for binary doubles; every
constant and comparison in the source is modelled exactly.) -/
inductive JSNum where
  | nan : JSNum
  | posInf : JSNum
  | negInf : JSNum
  | num : ℚ → JSNum
deriving DecidableEq, Repr

/-- JavaScript division of two nonnegative integers (`matches.length /
keypointTokens.length`, `hitCount / test.keypoints.length`): `0/0` is
NaN, `n/0` with `n > 0` is +Infinity, otherwise an exact rational. -/
def jsDivNat (n d : ℕ) : JSNum :=
  if d = 0 then (if n = 0 then JSNum.nan else JSNum.posInf)
  else JSNum.num ((n : ℚ) / (d : ℚ))

/-- JavaScript multiplication of a number by a rational constant
(used for `* 100`). -/
def jsMulQ : JSNum → ℚ → JSNum
  | JSNum.nan, _ => JSNum.nan
  | JSNum.posInf, q =>
      if 0 < q then JSNum.posInf else if q < 0 then JSNum.negInf else JSNum.nan
  | JSNum.negInf, q =>
      if 0 < q then JSNum.negInf else if q < 0 then JSNum.posInf else JSNum.nan
  | JSNum.num a, q => JSNum.num (a * q)

/-- JavaScript subtraction `x - y` on modelled numbers. -/
def jsSub : JSNum → JSNum → JSNum
  | JSNum.nan, _ => JSNum.nan
  | _, JSNum.nan => JSNum.nan
  | JSNum.posInf, JSNum.posInf => JSNum.nan
  | JSNum.posInf, _ => JSNum.posInf
  | JSNum.negInf, JSNum.negInf => JSNum.nan
  | JSNum.negInf, _ => JSNum.negInf
  | JSNum.num _, JSNum.posInf => JSNum.negInf
  | JSNum.num _, JSNum.negInf => JSNum.posInf
  | JSNum.num a, JSNum.num b => JSNum.num (a - b)

/-- JavaScript division of a modelled number by a rational constant
(profile standard deviations).  Division of a finite nonzero value by
zero yields a signed infinity (the sign of JavaScript zero is not
modelled; the engine's divisors are the profile standard deviations,
all strictly positive, so the zero-divisor branches are unreachable —
see `NORMATIVE_PROFILES_valid`). -/
def jsDivQ : JSNum → ℚ → JSNum
  | JSNum.nan, _ => JSNum.nan
  | JSNum.posInf, d =>
      if d < 0 then JSNum.negInf else JSNum.posInf
  | JSNum.negInf, d =>
      if d < 0 then JSNum.posInf else JSNum.negInf
  | JSNum.num a, d =>
      if d = 0 then
        (if a = 0 then JSNum.nan else if 0 < a then JSNum.posInf else JSNum.negInf)
      else JSNum.num (a / d)

/-- JavaScript comparison `x >= c` with a rational constant: false
whenever `x` is NaN. -/
def jsGeQ : JSNum → ℚ → Bool
  | JSNum.nan, _ => false
  | JSNum.posInf, _ => true
  | JSNum.negInf, _ => false
  | JSNum.num a, c => decide (c ≤ a)

/-- JavaScript truthiness of a number: NaN and 0 are falsy, every
other number (including the infinities) is truthy. -/
def jsTruthy : JSNum → Bool
  | JSNum.nan => false
  | JSNum.posInf => true
  | JSNum.negInf => true
  | JSNum.num a => decide (a ≠ 0)

/-- `Number(x.toFixed(2))` on a rational: round to the nearest
multiple of 1/100, ties away from zero (the ECMA `toFixed` rule). -/
def toFixed2q (q : ℚ) : ℚ :=
  if q < 0 then -(((⌊100 * (-q) + 1/2⌋ : ℤ) : ℚ) / 100)
  else ((⌊100 * q + 1/2⌋ : ℤ) : ℚ) / 100

/-- `Number(x.toFixed(2))` on a modelled number: NaN and the
infinities round-trip through their string forms unchanged. -/
def jsToFixed2 : JSNum → JSNum
  | JSNum.num q => JSNum.num (toFixed2q q)
  | x => x

/-- `Math.round`: round half toward positive infinity. -/
def jsRound (q : ℚ) : ℤ := ⌊q + 1/2⌋

/-- Real-valued counterpart of `Number(x.toFixed(2))`, for the
reliable-change value, which involves a real square root. -/
noncomputable def toFixed2R (x : ℝ) : ℝ :=
  if x < 0 then -(((⌊100 * (-x) + 1/2⌋ : ℤ) : ℝ) / 100)
  else ((⌊100 * x + 1/2⌋ : ℤ) : ℝ) / 100

/-- Model of the JavaScript number holding the reliable-change index:
an exact real, or one of the IEEE special values. -/
inductive JSR where
  | nan : JSR
  | posInf : JSR
  | negInf : JSR
  | num : ℝ → JSR

/-! ## Character model and tokenizer -/

/-- A character matched by the regex class `\w`: ASCII letters, ASCII
digits, and the underscore.  (Note `\w` includes the underscore, which
is not alphanumeric.) -/
def isWordChar (c : Char) : Bool := c.isAlphanum || c = '_'

/-- A character matched by the regex class `\s` (the ECMAScript
WhiteSpace and LineTerminator productions). -/
def isJsSpace (c : Char) : Bool :=
  c.toNat ∈ [9, 10, 11, 12, 13, 32, 0xA0, 0x1680, 0x2000, 0x2001, 0x2002,
    0x2003, 0x2004, 0x2005, 0x2006, 0x2007, 0x2008, 0x2009, 0x200A,
    0x2028, 0x2029, 0x202F, 0x205F, 0x3000, 0xFEFF]

/-- A combining diacritical mark in the range U+0300–U+036F, the class
removed by the source's `replace(/[̀-ͯ]/g, "")`. -/
def isCombiningMark (c : Char) : Bool :=
  decide (0x300 ≤ c.toNat) && decide (c.toNat ≤ 0x36F)

/-- The source's normalization prefix
`text.toLowerCase().normalize("NFD").replace(/[̀-ͯ]/g, "").replace(/[^\w\s]/g, "")`
on the character sequence of the text.  Case mapping is modelled on
the ASCII range (`Char.toLower`); `normalize("NFD")` is the identity
on ASCII and on text that is already decomposed, and the combining
marks NFD exposes are exactly what the next filter strips.  None of
the properties proved below depend on the case/decomposition model:
they are properties of the two character-class filters, which are
modelled exactly. -/
def normalizeChars (cs : List Char) : List Char :=
  ((cs.map Char.toLower).filter (fun c => !isCombiningMark c)).filter
    (fun c => isWordChar c || isJsSpace c)

/-- Split a character sequence into its maximal runs of
non-whitespace characters.  This is the source's
`split(/\s+/).filter(t => t.length > 0)`: splitting on runs of
whitespace yields exactly the non-whitespace runs plus possibly empty
leading/trailing fragments, which the length filter drops. -/
def wsSplitAux (cur : List Char) : List Char → List (List Char)
  | [] => if cur.isEmpty then [] else [cur.reverse]
  | c :: rest =>
      if isJsSpace c then
        (if cur.isEmpty then wsSplitAux [] rest
         else cur.reverse :: wsSplitAux [] rest)
      else wsSplitAux (c :: cur) rest

/-- The supported interface languages (`types.ts`). -/
inductive Language where
  | ptBR : Language
  | enUS : Language
  | esES : Language
deriving DecidableEq, Repr

/-- `STOPWORDS_PT_BR` from `constants.ts` (a JavaScript `Set`; element
membership is all that is used, so a list model is exact). -/
def STOPWORDS_PT_BR : List String :=
  ["a", "o", "as", "os", "um", "uma", "uns", "umas", "de", "do", "da", "dos", "das",
   "em", "no", "na", "nos", "nas", "por", "pelo", "pela", "pelos", "pelas",
   "para", "com", "sem", "sob", "sobre", "ante", "até",
   "e", "ou", "mas", "nem", "que", "se", "como",
   "eu", "tu", "ele", "ela", "nós", "vós", "eles", "elas",
   "me", "te", "se", "nos", "vos", "lhe", "lhes",
   "meu", "teu", "seu", "nosso", "vosso",
   "ser", "estar", "ter", "haver", "fazer", "ir",
   "foi", "era", "é", "são", "está", "estão",
   "isso", "aquilo", "isto", "esse", "essa", "este", "esta",
   "muito", "pouco", "mais", "menos", "tão"]

/-- `STOPWORDS_EN_US` from `constants.ts`. -/
def STOPWORDS_EN_US : List String :=
  ["a", "an", "the", "in", "on", "at", "to", "for", "of", "with", "by",
   "and", "or", "but", "is", "are", "was", "were", "be", "been",
   "i", "you", "he", "she", "it", "we", "they",
   "this", "that", "these", "those"]

/-- `tokenize` from `scoringService.ts`: lower-case, strip combining
marks, strip characters that are neither `\w` nor `\s`, split on
whitespace runs dropping empty fragments, then remove stopwords (the
en-US set for `en-US`, the pt-BR set otherwise) and tokens of length
at most 2. -/
def tokenize (text : String) (language : Language) : List String :=
  let normalized := normalizeChars text.data
  let tokens := (wsSplitAux [] normalized).map (fun cs => String.mk cs)
  let stopwords := match language with
    | Language.enUS => STOPWORDS_EN_US
    | _ => STOPWORDS_PT_BR
  tokens.filter (fun t => !stopwords.contains t && decide (2 < t.length))

/-! ## Data model (`types.ts`) -/

/-- `Complexity` from `types.ts`. -/
inductive Complexity where
  | neutral : Complexity
  | dense : Complexity
deriving DecidableEq, Repr

/-- `NormativeProfile` from `types.ts`. -/
structure NormativeProfile where
  id : String
  label : String
  language : Language
  mean_wpm : ℚ
  sd_wpm : ℚ
  mean_coverage : ℚ
  sd_coverage : ℚ
  reliability_coverage : ℚ
deriving DecidableEq, Repr

/-- `Keypoint` from `types.ts`. -/
structure Keypoint where
  id : ℤ
  text : String
  tokens : List String
deriving DecidableEq, Repr

/-- `TestInstance` from `types.ts`. -/
structure TestInstance where
  id : String
  language : Language
  topic : String
  complexity : Complexity
  passage : String
  keypoints : List Keypoint
  target_words : ℤ
  allowed_time_sec : ℚ
  normative_profile_id : String
  created_at : String
deriving DecidableEq, Repr

/-- `KeypointResult` from `types.ts`. -/
structure KeypointResult where
  keypoint_id : ℤ
  text : String
  hit : Bool
  matched_tokens : List String
deriving DecidableEq, Repr

/-- `SessionResult` from `types.ts`.  The reliable-change field is
real-valued (its computation involves a square root); every other
numeric field stays in the rational fragment. -/
structure SessionResult where
  session_id : String
  test_id : String
  normative_profile_id : String
  recall_text : String
  coverage_pct : JSNum
  z_coverage : JSNum
  wpm_effective : ℤ
  z_wpm : Option JSNum
  rci_coverage : Option JSR
  created_at : String
  keypoint_results : List KeypointResult
  qualitative_label : String

/-- `NORMATIVE_PROFILES[0]` from `constants.ts`. -/
def profileHighPerformance : NormativeProfile :=
  { id := "adult_high_performance",
    label := "Adulto (Alto Desempenho) - 39 anos / QI ~132",
    language := Language.ptBR,
    mean_wpm := 250, sd_wpm := 40,
    mean_coverage := 80, sd_coverage := 10,
    reliability_coverage := 85/100 }

/-- `NORMATIVE_PROFILES[1]` from `constants.ts`. -/
def profileAdultGeneral : NormativeProfile :=
  { id := "adult_pt_br_general",
    label := "Adulto Geral (pt-BR) - Piloto",
    language := Language.ptBR,
    mean_wpm := 180, sd_wpm := 30,
    mean_coverage := 65, sd_coverage := 15,
    reliability_coverage := 80/100 }

/-- `NORMATIVE_PROFILES[2]` from `constants.ts`. -/
def profileElderly : NormativeProfile :=
  { id := "elderly_pt_br_general",
    label := "Idoso >65 anos (pt-BR) - Piloto",
    language := Language.ptBR,
    mean_wpm := 140, sd_wpm := 25,
    mean_coverage := 50, sd_coverage := 12,
    reliability_coverage := 75/100 }

/-- `NORMATIVE_PROFILES[3]` from `constants.ts`. -/
def profileEnUsGeneral : NormativeProfile :=
  { id := "adult_en_us_general",
    label := "General Adult (en-US) - Pilot",
    language := Language.enUS,
    mean_wpm := 230, sd_wpm := 40,
    mean_coverage := 65, sd_coverage := 15,
    reliability_coverage := 80/100 }

/-- `NORMATIVE_PROFILES` from `constants.ts`. -/
def NORMATIVE_PROFILES : List NormativeProfile :=
  [profileHighPerformance, profileAdultGeneral, profileElderly, profileEnUsGeneral]

/-! ## Keypoint match evaluator (`scoringService.ts`) -/

/-- Return type of `calculateMatch`.  The source names the second
field `matches`, which is reserved in Lean; it is rendered `matched`. -/
structure MatchResult where
  hit : Bool
  matched : List String
deriving DecidableEq, Repr

/-- The source's `keypointTokens.filter(kt => recallTokens.includes(kt))`:
keypoint-token occurrences, with multiplicity over the keypoint
sequence, that occur anywhere in the recall tokens. -/
def matchesOf (recallTokens keypointTokens : List String) : List String :=
  keypointTokens.filter (fun kt => decide (kt ∈ recallTokens))

/-- `Array.from(new Set(matches))`: deduplicate keeping the first
occurrence of each element, as JavaScript `Set` iteration does. -/
def dedupFirst (seen : List String) : List String → List String
  | [] => []
  | x :: xs =>
      if x ∈ seen then dedupFirst seen xs else x :: dedupFirst (x :: seen) xs

/-- The source's `coverageRatio = matches.length / keypointTokens.length`
(NaN when the keypoint token sequence is empty, since `0/0` is NaN). -/
def coverageRatioOf (recallTokens keypointTokens : List String) : JSNum :=
  jsDivNat (matchesOf recallTokens keypointTokens).length keypointTokens.length

/-- `calculateMatch` from `scoringService.ts`: hit when the coverage
ratio is at least 0.35 or at least two distinct keypoint tokens were
found; reports the deduplicated matches. -/
def calculateMatch (recallTokens keypointTokens : List String) : MatchResult :=
  let uniqueMatches := dedupFirst [] (matchesOf recallTokens keypointTokens)
  let hit := jsGeQ (coverageRatioOf recallTokens keypointTokens) (35/100) ||
    decide (2 ≤ uniqueMatches.length)
  { hit := hit, matched := uniqueMatches }

/-! ## Session scoring (`scoringService.ts`) -/

/-- The source's `NORMATIVE_PROFILES.find(p => p.id === test.normative_profile_id)`. -/
def findProfile (pid : String) : Option NormativeProfile :=
  NORMATIVE_PROFILES.find? (fun p => p.id == pid)

/-- The source's `test.passage.trim().split(/\s+/).length`: the number
of maximal non-whitespace runs in the passage, except that a passage
with no non-whitespace character trims to the empty string, whose
JavaScript split is `[""]` of length 1. -/
def passageWordCountOf (s : String) : ℕ :=
  let runs := wsSplitAux [] s.data
  if runs.isEmpty then 1 else runs.length

/-- Modelled from the spec: `word_count = count of whitespace-delimited
tokens in the passage (no normalization applied here — raw word
count)`.  This is the comparison definition for the wpm claim; it is 0
on a whitespace-only passage, where the source's count is 1. -/
def rawWordCountOf (s : String) : ℕ := (wsSplitAux [] s.data).length

/-- Qualitative label emitted by the source when the z-coverage is at
least −1 (the spec's "within expected range"). -/
def labelWithinExpected : String := "Dentro da faixa esperada"

/-- Qualitative label emitted by the source when the z-coverage is in
[−2, −1) (the spec's "mildly reduced"). -/
def labelMildlyReduced : String := "Levemente reduzido"

/-- Qualitative label emitted by the source when the z-coverage is
below −2 (the spec's "below expected range"). -/
def labelBelowExpected : String := "Abaixo do esperado"

/-- Qualitative label emitted by the source when no normative profile
resolves (the spec's "normative data unavailable"). -/
def labelNoNorms : String := "Dados normativos indisponíveis"

/-- The source's `sDiff = profile.sd_coverage * Math.sqrt(2 * (1 - profile.reliability_coverage))`. -/
noncomputable def sDiffOf (p : NormativeProfile) : ℝ :=
  (p.sd_coverage : ℝ) * Real.sqrt (2 * (1 - (p.reliability_coverage : ℝ)))

/-- The reported reliable-change field once both a profile and a
previous session exist: the source computes `rciCoverage = diff /
sDiff` and reports `rciCoverage ? Number(rciCoverage.toFixed(2)) :
undefined`.  A NaN difference gives NaN (falsy — absent); an infinite
difference divided by the positive `sDiff` stays infinite (truthy —
present, with toFixed round-tripping the infinity); a zero rational
difference gives 0 (falsy — absent); a nonzero rational difference
gives the nonzero real quotient (truthy — present, rounded).  Division
of a nonzero value by a zero `sDiff` cannot occur: every profile the
lookup can return has positive `sd_coverage` and reliability strictly
below 1 (`NORMATIVE_PROFILES_valid`), so `sDiffOf p > 0`
(`sDiffOf_pos`). -/
noncomputable def rciField (p : NormativeProfile) (cov prevCov : JSNum) : Option JSR :=
  match jsSub cov prevCov with
  | JSNum.nan => none
  | JSNum.posInf => some JSR.posInf
  | JSNum.negInf => some JSR.negInf
  | JSNum.num d =>
      if d = 0 then none
      else some (JSR.num (toFixed2R ((d : ℝ) / sDiffOf p)))

/-- `scoreSession` from `scoringService.ts`.  The ambient
`crypto.randomUUID()` and `new Date().toISOString()` are passed in as
the explicit arguments `sessionId` and `createdAt`; everything else is
a direct translation.  In the assembled record, `z_wpm` and
`rci_coverage` reproduce the source's `x ? Number(x.toFixed(2)) :
undefined`: the field is absent when the computed value is absent or
falsy (0 or NaN).  In the reliable-change branch the division
`diff / sDiff` is rendered as: NaN numerator propagates; a zero
rational numerator gives 0 (falsy, hence the absent field); a nonzero
rational numerator gives the real quotient (division of a nonzero
value by a zero `sDiff` cannot occur, because every profile the lookup
can return has positive `sd_coverage` and reliability below 1 — see
`NORMATIVE_PROFILES_valid`). -/
noncomputable def scoreSession (sessionId createdAt : String) (test : TestInstance)
    (recallText : String) (actualReadTimeSec : ℚ)
    (previousSession : Option SessionResult) : SessionResult :=
  let recallTokens := tokenize recallText test.language
  let keypointResults : List KeypointResult := test.keypoints.map (fun kp =>
    let kpTokens := tokenize kp.text test.language
    let m := calculateMatch recallTokens kpTokens
    { keypoint_id := kp.id, text := kp.text, hit := m.hit,
      matched_tokens := m.matched })
  let hitCount := (keypointResults.filter (fun k => k.hit)).length
  let coveragePct := jsMulQ (jsDivNat hitCount test.keypoints.length) 100
  let profile := findProfile test.normative_profile_id
  let safeTime : ℚ := if actualReadTimeSec < 5 then 5 else actualReadTimeSec
  let passageWordCount := passageWordCountOf test.passage
  let wpmEffective : ℤ := jsRound ((passageWordCount : ℚ) / safeTime * 60)
  let zCoverage : JSNum := match profile with
    | some p => jsDivQ (jsSub coveragePct (JSNum.num p.mean_coverage)) p.sd_coverage
    | none => JSNum.num 0
  let zWpm : Option JSNum := match profile with
    | some p => some (jsDivQ (JSNum.num ((wpmEffective : ℚ) - p.mean_wpm)) p.sd_wpm)
    | none => none
  let qualitativeLabel : String := match profile with
    | some _ =>
        if jsGeQ zCoverage (-1) then labelWithinExpected
        else if jsGeQ zCoverage (-2) then labelMildlyReduced
        else labelBelowExpected
    | none => labelNoNorms
  let rciCoverage : Option JSR := match profile, previousSession with
    | some p, some prev => rciField p coveragePct prev.coverage_pct
    | _, _ => none
  { session_id := sessionId,
    test_id := test.id,
    normative_profile_id := test.normative_profile_id,
    recall_text := recallText,
    coverage_pct := coveragePct,
    z_coverage := jsToFixed2 zCoverage,
    wpm_effective := wpmEffective,
    z_wpm := match zWpm with
      | some z => if jsTruthy z then some (jsToFixed2 z) else none
      | none => none,
    rci_coverage := rciCoverage,
    created_at := createdAt,
    keypoint_results := keypointResults,
    qualitative_label := qualitativeLabel }

/-! ## Concrete fixtures used to instantiate the theorems -/

/-- A keypoint whose text is a single word. -/
def kpWord (i : ℤ) (w : String) : Keypoint := { id := i, text := w, tokens := [w] }

/-- Five single-word pt-BR keypoints scored against the resolved
profile `adult_pt_br_general`. -/
def testFiveKp : TestInstance :=
  { id := "t-five", language := Language.ptBR, topic := "x",
    complexity := Complexity.neutral, passage := "sol gira",
    keypoints := [kpWord 1 "gato", kpWord 2 "casa", kpWord 3 "livro",
      kpWord 4 "planta", kpWord 5 "pedra"],
    target_words := 5, allowed_time_sec := 90,
    normative_profile_id := "adult_pt_br_general", created_at := "c" }

/-- A recall hitting four of the five keypoints of `testFiveKp`. -/
def recallFour : String := "gato casa livro planta"

/-- Three single-word keypoints, of which a one-word recall hits
exactly one: coverage is 100/3, not a 2-decimal value. -/
def testThreeKp : TestInstance :=
  { id := "t-three", language := Language.ptBR, topic := "x",
    complexity := Complexity.neutral, passage := "sol",
    keypoints := [kpWord 1 "gato", kpWord 2 "casa", kpWord 3 "livro"],
    target_words := 3, allowed_time_sec := 90,
    normative_profile_id := "adult_pt_br_general", created_at := "c" }

/-- A single-keypoint test on the resolved profile
`adult_pt_br_general`; recalling its one word gives coverage 100. -/
def testOneKp : TestInstance :=
  { id := "t-one", language := Language.ptBR, topic := "x",
    complexity := Complexity.neutral, passage := "sol",
    keypoints := [kpWord 1 "sol"],
    target_words := 1, allowed_time_sec := 90,
    normative_profile_id := "adult_pt_br_general", created_at := "c" }

/-- A degenerate test with no keypoints and an unresolvable profile. -/
def testZeroKp : TestInstance :=
  { id := "t-zero", language := Language.ptBR, topic := "x",
    complexity := Complexity.neutral, passage := "sol",
    keypoints := [],
    target_words := 0, allowed_time_sec := 90,
    normative_profile_id := "no_such_profile", created_at := "c" }

/-- A degenerate test whose passage is the empty string. -/
def testEmptyPassage : TestInstance :=
  { id := "t-empty", language := Language.ptBR, topic := "x",
    complexity := Complexity.neutral, passage := "",
    keypoints := [kpWord 1 "sol"],
    target_words := 0, allowed_time_sec := 90,
    normative_profile_id := "no_such_profile", created_at := "c" }

/-- A test with an unresolvable normative profile identifier. -/
def testNoProfile : TestInstance :=
  { id := "t-nop", language := Language.ptBR, topic := "x",
    complexity := Complexity.neutral, passage := "sol",
    keypoints := [kpWord 1 "sol"],
    target_words := 1, allowed_time_sec := 90,
    normative_profile_id := "custom_profile_42", created_at := "c" }

/-- A 15-word passage read in 5 seconds gives exactly the
`adult_pt_br_general` mean reading speed of 180 wpm. -/
def testMeanWpm : TestInstance :=
  { id := "t-wpm", language := Language.ptBR, topic := "x",
    complexity := Complexity.neutral,
    passage := "a a a a a a a a a a a a a a a",
    keypoints := [kpWord 1 "sol"],
    target_words := 15, allowed_time_sec := 90,
    normative_profile_id := "adult_pt_br_general", created_at := "c" }

/-- A passage of exactly 100 whitespace-delimited words. -/
def passage100 : String := String.intercalate " " (List.replicate 100 "a")

/-- A test carrying the 100-word passage. -/
def testHundredWords : TestInstance :=
  { id := "t-hundred", language := Language.ptBR, topic := "x",
    complexity := Complexity.neutral, passage := passage100,
    keypoints := [kpWord 1 "sol"],
    target_words := 100, allowed_time_sec := 90,
    normative_profile_id := "adult_pt_br_general", created_at := "c" }

/-- A previous session with coverage 100, used as the reliable-change
baseline. -/
def prevSession100 : SessionResult :=
  { session_id := "prev", test_id := "t-one",
    normative_profile_id := "adult_pt_br_general", recall_text := "sol",
    coverage_pct := JSNum.num 100, z_coverage := JSNum.num 0,
    wpm_effective := 0, z_wpm := none, rci_coverage := none,
    created_at := "c0", keypoint_results := [], qualitative_label := "" }

/-- A previous session with coverage 50. -/
def prevSession50 : SessionResult :=
  { session_id := "prev50", test_id := "t-one",
    normative_profile_id := "adult_pt_br_general", recall_text := "",
    coverage_pct := JSNum.num 50, z_coverage := JSNum.num 0,
    wpm_effective := 0, z_wpm := none, rci_coverage := none,
    created_at := "c0", keypoint_results := [], qualitative_label := "" }

/-- A reported JavaScript number is rounded to 2 decimal places: any
rational it holds is an integer multiple of 1/100. -/
def roundedTo2 (v : JSNum) : Prop :=
  ∀ q : ℚ, v = JSNum.num q → ∃ n : ℤ, q = (n : ℚ) / 100

/-- Real-valued counterpart of `roundedTo2`, for the reliable-change
field. -/
def roundedTo2R (v : JSR) : Prop :=
  ∀ x : ℝ, v = JSR.num x → ∃ n : ℤ, x = (n : ℝ) / 100

/-! ## Helper lemmas -/

theorem mem_dedupFirst {c : String} :
    ∀ (l seen : List String), c ∈ dedupFirst seen l ↔ c ∈ l ∧ c ∉ seen := by
  intro l
  induction l with
  | nil => intro seen; simp [dedupFirst]
  | cons x xs ih =>
      intro seen
      by_cases hx : x ∈ seen
      · rw [show dedupFirst seen (x :: xs) = dedupFirst seen xs from by
          simp only [dedupFirst, if_pos hx], ih]
        constructor
        · rintro ⟨h1, h2⟩
          exact ⟨List.mem_cons_of_mem x h1, h2⟩
        · rintro ⟨h1, h2⟩
          rcases List.mem_cons.mp h1 with rfl | h1
          · exact absurd hx h2
          · exact ⟨h1, h2⟩
      · rw [show dedupFirst seen (x :: xs) = x :: dedupFirst (x :: seen) xs from by
          simp only [dedupFirst, if_neg hx]]
        constructor
        · intro h
          rcases List.mem_cons.mp h with rfl | h1
          · exact ⟨List.mem_cons_self c xs, hx⟩
          · obtain ⟨h2, h3⟩ := (ih (x :: seen)).mp h1
            exact ⟨List.mem_cons_of_mem x h2,
              fun hc => h3 (List.mem_cons_of_mem x hc)⟩
        · rintro ⟨h1, h2⟩
          rcases List.mem_cons.mp h1 with rfl | h1
          · exact List.mem_cons_self c _
          · by_cases hcx : c = x
            · subst hcx; exact List.mem_cons_self c _
            · refine List.mem_cons_of_mem x ((ih (x :: seen)).mpr ⟨h1, fun hc => ?_⟩)
              rcases List.mem_cons.mp hc with h | h
              · exact hcx h
              · exact h2 h

theorem nodup_dedupFirst : ∀ (l seen : List String), (dedupFirst seen l).Nodup := by
  intro l
  induction l with
  | nil => intro seen; simp [dedupFirst]
  | cons x xs ih =>
      intro seen
      by_cases hx : x ∈ seen
      · rw [show dedupFirst seen (x :: xs) = dedupFirst seen xs from by
          simp only [dedupFirst, if_pos hx]]
        exact ih seen
      · rw [show dedupFirst seen (x :: xs) = x :: dedupFirst (x :: seen) xs from by
          simp only [dedupFirst, if_neg hx]]
        refine List.nodup_cons.mpr ⟨fun hc => ?_, ih (x :: seen)⟩
        exact ((mem_dedupFirst xs (x :: seen)).mp hc).2 (List.mem_cons_self x seen)

theorem length_dedupFirst (l : List String) :
    (dedupFirst [] l).length = l.toFinset.card := by
  have hfs : (dedupFirst [] l).toFinset = l.toFinset := by
    ext c
    simp [List.mem_toFinset, mem_dedupFirst]
  calc (dedupFirst [] l).length
      = (dedupFirst [] l).toFinset.card :=
        (List.toFinset_card_of_nodup (nodup_dedupFirst l [])).symm
    _ = l.toFinset.card := by rw [hfs]

theorem toFinset_matchesOf (rcl kpt : List String) :
    (matchesOf rcl kpt).toFinset = kpt.toFinset ∩ rcl.toFinset := by
  ext c
  simp [matchesOf, List.mem_toFinset, List.mem_filter, Finset.mem_inter]

theorem NORMATIVE_PROFILES_valid :
    ∀ p ∈ NORMATIVE_PROFILES, 0 < p.sd_wpm ∧ 0 < p.sd_coverage ∧
      0 < p.reliability_coverage ∧ p.reliability_coverage < 1 := by
  with_unfolding_all decide

theorem findProfile_mem {pid : String} {p : NormativeProfile}
    (h : findProfile pid = some p) : p ∈ NORMATIVE_PROFILES :=
  List.mem_of_find?_eq_some h

theorem sDiffOf_pos {p : NormativeProfile} (hp : p ∈ NORMATIVE_PROFILES) :
    0 < sDiffOf p := by
  obtain ⟨-, hsd, -, hrel⟩ := NORMATIVE_PROFILES_valid p hp
  have h2 : (0 : ℝ) < 2 * (1 - (p.reliability_coverage : ℝ)) := by
    have : (p.reliability_coverage : ℝ) < 1 := by exact_mod_cast hrel
    nlinarith
  have hsq : 0 < Real.sqrt (2 * (1 - (p.reliability_coverage : ℝ))) :=
    Real.sqrt_pos.mpr h2
  have hsd0 : (0 : ℝ) < (p.sd_coverage : ℝ) := by exact_mod_cast hsd
  exact mul_pos hsd0 hsq

theorem wsSplitAux_ne_nil_of_cur :
    ∀ (cs cur : List Char), cur ≠ [] → wsSplitAux cur cs ≠ [] := by
  intro cs
  induction cs with
  | nil =>
      intro cur hc
      simp only [wsSplitAux]
      rw [if_neg (by simpa [List.isEmpty_iff] using hc)]
      simp
  | cons c rest ih =>
      intro cur hc
      simp only [wsSplitAux]
      by_cases hsp : isJsSpace c
      · rw [if_pos hsp, if_neg (by simpa [List.isEmpty_iff] using hc)]
        simp
      · rw [if_neg hsp]
        exact ih (c :: cur) (by simp)

theorem wsSplitAux_ne_nil_of_mem :
    ∀ (cs cur : List Char), (∃ c ∈ cs, isJsSpace c = false) →
      wsSplitAux cur cs ≠ [] := by
  intro cs
  induction cs with
  | nil => rintro cur ⟨c, hc, -⟩; cases hc
  | cons c rest ih =>
      rintro cur ⟨d, hd, hdns⟩
      simp only [wsSplitAux]
      by_cases hsp : isJsSpace c
      · rw [if_pos hsp]
        have hdr : d ∈ rest := by
          rcases List.mem_cons.mp hd with rfl | h
          · rw [hdns] at hsp; cases hsp
          · exact h
        by_cases hcur : cur.isEmpty
        · rw [if_pos hcur]; exact ih [] ⟨d, hdr, hdns⟩
        · rw [if_neg hcur]; simp
      · rw [if_neg hsp]
        exact wsSplitAux_ne_nil_of_cur rest (c :: cur) (by simp)

theorem wsSplitAux_chars (P : Char → Prop) :
    ∀ (cs cur : List Char), (∀ c ∈ cur, P c) →
      (∀ c ∈ cs, isJsSpace c = false → P c) →
      ∀ r ∈ wsSplitAux cur cs, ∀ c ∈ r, P c := by
  intro cs
  induction cs with
  | nil =>
      intro cur hcur _ r hr c hc
      simp only [wsSplitAux] at hr
      by_cases he : cur.isEmpty
      · rw [if_pos he] at hr; cases hr
      · rw [if_neg he] at hr
        rcases List.mem_singleton.mp hr with rfl
        exact hcur c (List.mem_reverse.mp hc)
  | cons a rest ih =>
      intro cur hcur hcs r hr c hc
      simp only [wsSplitAux] at hr
      by_cases hsp : isJsSpace a
      · rw [if_pos hsp] at hr
        by_cases he : cur.isEmpty
        · rw [if_pos he] at hr
          exact ih [] (by simp) (fun d hd hdn => hcs d (List.mem_cons_of_mem a hd) hdn) r hr c hc
        · rw [if_neg he] at hr
          rcases List.mem_cons.mp hr with rfl | hr2
          · exact hcur c (List.mem_reverse.mp hc)
          · exact ih [] (by simp) (fun d hd hdn => hcs d (List.mem_cons_of_mem a hd) hdn) r hr2 c hc
      · rw [if_neg hsp] at hr
        refine ih (a :: cur) ?_ (fun d hd hdn => hcs d (List.mem_cons_of_mem a hd) hdn) r hr c hc
        intro d hd
        rcases List.mem_cons.mp hd with rfl | hd2
        · exact hcs _ (List.mem_cons_self _ rest) (by simpa using hsp)
        · exact hcur d hd2

theorem roundedTo2_jsToFixed2 (v : JSNum) : roundedTo2 (jsToFixed2 v) := by
  intro q h
  cases v with
  | nan => simp [jsToFixed2] at h
  | posInf => simp [jsToFixed2] at h
  | negInf => simp [jsToFixed2] at h
  | num a =>
      simp only [jsToFixed2, JSNum.num.injEq] at h
      subst h
      unfold toFixed2q
      by_cases ha : a < 0
      · refine ⟨-⌊100 * (-a) + 1/2⌋, ?_⟩
        rw [if_pos ha]; push_cast; ring
      · exact ⟨⌊100 * a + 1/2⌋, by rw [if_neg ha]⟩

theorem roundedTo2R_toFixed2R (x : ℝ) : roundedTo2R (JSR.num (toFixed2R x)) := by
  intro y h
  injection h with h2
  subst h2
  unfold toFixed2R
  by_cases hx : x < 0
  · refine ⟨-⌊100 * (-x) + 1/2⌋, ?_⟩
    rw [if_pos hx]; push_cast; ring
  · exact ⟨⌊100 * x + 1/2⌋, by rw [if_neg hx]⟩

theorem rciField_some_rounded (p : NormativeProfile) (cov prevCov : JSNum) (r : JSR)
    (h : rciField p cov prevCov = some r) : roundedTo2R r := by
  unfold rciField at h
  rcases hsub : jsSub cov prevCov with - | - | - | d <;> rw [hsub] at h
  · exact Option.noConfusion h
  · have h2 : some JSR.posInf = some r := h
    injection h2 with h3
    subst h3
    intro x hx
    cases hx
  · have h2 : some JSR.negInf = some r := h
    injection h2 with h3
    subst h3
    intro x hx
    cases hx
  · have h2 : (if d = 0 then none
        else some (JSR.num (toFixed2R ((d : ℝ) / sDiffOf p)))) = some r := h
    split_ifs at h2 with hd
    injection h2 with h3
    subst h3
    exact roundedTo2R_toFixed2R _

/-! ## Claim theorems -/

/-- Claim C1: for every recall token sequence and every non-empty
keypoint token sequence, the match evaluator returns `hit = true`
exactly when the coverage ratio is at least 0.35 or at least two
distinct tokens are shared, where the ratio's numerator counts
keypoint-token occurrences (with multiplicity over the keypoint
sequence) found anywhere in the recall tokens and the distinct count
is the cardinality of the set intersection of the two token sets. -/
theorem claim1_hit_rule (rcl kpt : List String) (hk : kpt ≠ []) :
    (calculateMatch rcl kpt).hit = true ↔
      ((35 : ℚ)/100 ≤ ((kpt.filter (fun t => decide (t ∈ rcl))).length : ℚ) / (kpt.length : ℚ) ∨
        2 ≤ (kpt.toFinset ∩ rcl.toFinset).card) := by
  have hn : kpt.length ≠ 0 := fun h => hk (List.length_eq_zero.mp h)
  show (jsGeQ (coverageRatioOf rcl kpt) (35/100) ||
      decide (2 ≤ (dedupFirst [] (matchesOf rcl kpt)).length)) = true ↔ _
  rw [Bool.or_eq_true, decide_eq_true_eq]
  have hratio : coverageRatioOf rcl kpt =
      JSNum.num (((matchesOf rcl kpt).length : ℚ) / (kpt.length : ℚ)) := by
    unfold coverageRatioOf jsDivNat
    rw [if_neg hn]
  rw [hratio]
  have hlen : (dedupFirst [] (matchesOf rcl kpt)).length =
      (kpt.toFinset ∩ rcl.toFinset).card := by
    rw [length_dedupFirst, toFinset_matchesOf]
  rw [hlen]
  simp [jsGeQ, matchesOf]

/-- Witness for C1: a three-token keypoint with one token recalled
(ratio 1/3, one distinct shared token) instantiates the hit rule. -/
theorem claim1_hit_rule_witness :
    (["abc", "xyz", "qqq"] : List String) ≠ [] ∧
      ((calculateMatch ["abc", "def"] ["abc", "xyz", "qqq"]).hit = true ↔
        ((35 : ℚ)/100 ≤
            (((["abc", "xyz", "qqq"] : List String).filter
                (fun t => decide (t ∈ (["abc", "def"] : List String)))).length : ℚ) /
              ((["abc", "xyz", "qqq"] : List String).length : ℚ) ∨
          2 ≤ ((["abc", "xyz", "qqq"] : List String).toFinset ∩
              (["abc", "def"] : List String).toFinset).card)) :=
  ⟨by decide, claim1_hit_rule ["abc", "def"] ["abc", "xyz", "qqq"] (by decide)⟩

/-- Claim C2 (amended only in presentation of the reported rounding):
whenever the normative profile resolves and the test has at least one
keypoint, the coverage is a rational `cov`, the reported `z_coverage`
is the 2-decimal rounding of `(cov − mean_coverage) / sd_coverage`,
and the qualitative label is chosen by first-match thresholds −1 and
−2 on the unrounded z value. -/
theorem claim2_z_and_label (sid cat : String) (test : TestInstance) (rt : String)
    (t : ℚ) (prev : Option SessionResult) (p : NormativeProfile)
    (hp : findProfile test.normative_profile_id = some p) (hk : test.keypoints ≠ []) :
    ∃ cov : ℚ, (scoreSession sid cat test rt t prev).coverage_pct = JSNum.num cov ∧
      (scoreSession sid cat test rt t prev).z_coverage =
        JSNum.num (toFixed2q ((cov - p.mean_coverage) / p.sd_coverage)) ∧
      (scoreSession sid cat test rt t prev).qualitative_label =
        (if (-1 : ℚ) ≤ (cov - p.mean_coverage) / p.sd_coverage then labelWithinExpected
         else if (-2 : ℚ) ≤ (cov - p.mean_coverage) / p.sd_coverage then labelMildlyReduced
         else labelBelowExpected) := by
  have hsd : ¬ p.sd_coverage = 0 :=
    ne_of_gt (NORMATIVE_PROFILES_valid p (findProfile_mem hp)).2.1
  have hn : ¬ test.keypoints.length = 0 := fun h => hk (List.length_eq_zero.mp h)
  simp only [scoreSession, hp, jsDivNat, jsMulQ, jsSub, jsDivQ, jsToFixed2, jsGeQ,
    if_neg hn, if_neg hsd, decide_eq_true_eq]
  exact ⟨_, rfl, rfl, rfl⟩

/-- Witness for C2, realizing the claim's particular instance: on the
`adult_pt_br_general` profile (mean 65, sd 15) a session with
coverage 80 reports `z_coverage` exactly 1 and the "within expected
range" label. -/
theorem claim2_z_and_label_witness :
    findProfile testFiveKp.normative_profile_id = some profileAdultGeneral ∧
      (scoreSession "s" "d" testFiveKp recallFour 10 none).z_coverage = JSNum.num 1 ∧
      (scoreSession "s" "d" testFiveKp recallFour 10 none).qualitative_label =
        labelWithinExpected := by
  have hp : findProfile testFiveKp.normative_profile_id = some profileAdultGeneral := by
    with_unfolding_all rfl
  refine ⟨hp, ?_⟩
  obtain ⟨cov, hc, hz, hl⟩ :=
    claim2_z_and_label "s" "d" testFiveKp recallFour 10 none profileAdultGeneral hp (by decide)
  have hc80 : (scoreSession "s" "d" testFiveKp recallFour 10 none).coverage_pct
      = JSNum.num 80 := by with_unfolding_all decide
  rw [hc] at hc80
  injection hc80 with hcov
  subst hcov
  constructor
  · rw [hz]
    norm_num [profileAdultGeneral, toFixed2q]
  · rw [hl]
    norm_num [profileAdultGeneral, labelWithinExpected]

/-- Claim C3 (code bug): with a resolved profile and a previous
session whose coverage equals the current coverage, the engine drops
the reliable-change field entirely (the computed index 0 is falsy in
the source's `rciCoverage ? … : undefined`), contradicting the spec's
"present if and only if both a previous session and a resolved
normative profile exist". -/
theorem claim3_rci_dropped_at_zero_diff :
    findProfile testOneKp.normative_profile_id = some profileAdultGeneral ∧
      (scoreSession "s" "d" testOneKp "sol" 10 (some prevSession100)).coverage_pct =
        prevSession100.coverage_pct ∧
      (scoreSession "s" "d" testOneKp "sol" 10 (some prevSession100)).rci_coverage = none :=
  ⟨by with_unfolding_all rfl, by with_unfolding_all decide, by with_unfolding_all rfl⟩

/-- Claim C4 (code bug): on a test with zero keypoints the engine
reports `coverage_pct = NaN` rather than the mandated 0, and on an
empty passage with 2 seconds elapsed it reports `wpm_effective = 12`
(JavaScript counts one word in an empty trimmed string) rather than
the mandated 0. -/
theorem claim4_degenerate_behavior :
    (scoreSession "s" "d" testZeroKp "" 10 none).coverage_pct = JSNum.nan ∧
      JSNum.nan ≠ JSNum.num 0 ∧
      (scoreSession "s" "d" testEmptyPassage "x" 2 none).wpm_effective = 12 ∧
      (12 : ℤ) ≠ 0 :=
  ⟨by with_unfolding_all decide, by decide, by with_unfolding_all decide, by decide⟩

/-- Claim C5 (amended): `wpm_effective` is always nonnegative, and for
every passage containing at least one non-whitespace character it
equals `round(raw word count / max(elapsed, 5) × 60)`; the raw-count
formula fails only on whitespace-only passages (see the
counterexample), where JavaScript's split counts one word. -/
theorem claim5_wpm (sid cat : String) (test : TestInstance) (rt : String)
    (t : ℚ) (prev : Option SessionResult) :
    0 ≤ (scoreSession sid cat test rt t prev).wpm_effective ∧
      ((∃ c ∈ test.passage.data, isJsSpace c = false) →
        (scoreSession sid cat test rt t prev).wpm_effective =
          jsRound ((rawWordCountOf test.passage : ℚ) / max t 5 * 60)) := by
  have hsafe : (0 : ℚ) < (if t < 5 then 5 else t) := by
    split_ifs with h
    · norm_num
    · linarith [not_lt.mp h]
  constructor
  · simp only [scoreSession]
    have h1 : (0:ℚ) ≤ (passageWordCountOf test.passage : ℚ) := Nat.cast_nonneg _
    have harg : (0:ℚ) ≤ (passageWordCountOf test.passage : ℚ) /
        (if t < 5 then (5:ℚ) else t) * 60 :=
      mul_nonneg (div_nonneg h1 hsafe.le) (by norm_num)
    unfold jsRound
    exact Int.floor_nonneg.mpr (by linarith)
  · intro hex
    have hwc : passageWordCountOf test.passage = rawWordCountOf test.passage := by
      unfold passageWordCountOf rawWordCountOf
      have hne := wsSplitAux_ne_nil_of_mem test.passage.data [] hex
      rw [if_neg (by simpa [List.isEmpty_iff] using hne)]
    have hmax : (if t < 5 then (5:ℚ) else t) = max t 5 := by
      split_ifs with h
      · exact (max_eq_right h.le).symm
      · exact (max_eq_left (not_lt.mp h)).symm
    simp only [scoreSession]
    rw [hwc, hmax]

set_option maxRecDepth 8000 in
/-- Witness for C5, realizing the claim's particular instance: a
100-word passage read in 2 seconds scores `wpm_effective = 1200`
through the 5-second floor. -/
theorem claim5_wpm_witness :
    (∃ c ∈ testHundredWords.passage.data, isJsSpace c = false) ∧
      (scoreSession "s" "d" testHundredWords "" 2 none).wpm_effective = 1200 := by
  have hex : ∃ c ∈ testHundredWords.passage.data, isJsSpace c = false := by decide
  refine ⟨hex, ?_⟩
  rw [(claim5_wpm "s" "d" testHundredWords "" 2 none).2 hex]
  with_unfolding_all decide

set_option maxRecDepth 8000 in
/-- Counterexample to C5 as stated: on the empty passage the engine
reports 12 wpm (JavaScript's `"".trim().split(/\s+/)` is `[""]`, of
length 1) while the claim's raw-word-count formula gives 0. -/
theorem claim5_raw_count_counterexample :
    (scoreSession "s" "d" testEmptyPassage "" 2 none).wpm_effective ≠
      jsRound ((rawWordCountOf testEmptyPassage.passage : ℚ) / max 2 5 * 60) := by
  with_unfolding_all decide

/-- Claim C6: when the normative profile does not resolve, scoring
still succeeds with `z_coverage = 0`, `z_wpm` absent, `rci_coverage`
absent even when a previous session is supplied, and the
"normative data unavailable" label. -/
theorem claim6_missing_profile (sid cat : String) (test : TestInstance) (rt : String)
    (t : ℚ) (prev : Option SessionResult)
    (hp : findProfile test.normative_profile_id = none) :
    (scoreSession sid cat test rt t prev).z_coverage = JSNum.num 0 ∧
      (scoreSession sid cat test rt t prev).z_wpm = none ∧
      (scoreSession sid cat test rt t prev).rci_coverage = none ∧
      (scoreSession sid cat test rt t prev).qualitative_label = labelNoNorms := by
  simp only [scoreSession, hp]
  norm_num [jsToFixed2, toFixed2q]

/-- Witness for C6: a session with an unresolvable profile identifier
and a supplied previous session. -/
theorem claim6_missing_profile_witness :
    findProfile testNoProfile.normative_profile_id = none ∧
      ((scoreSession "s" "d" testNoProfile "sol" 10 (some prevSession100)).z_coverage =
          JSNum.num 0 ∧
        (scoreSession "s" "d" testNoProfile "sol" 10 (some prevSession100)).z_wpm = none ∧
        (scoreSession "s" "d" testNoProfile "sol" 10 (some prevSession100)).rci_coverage =
          none ∧
        (scoreSession "s" "d" testNoProfile "sol" 10 (some prevSession100)).qualitative_label =
          labelNoNorms) := by
  have hp : findProfile testNoProfile.normative_profile_id = none := by
    with_unfolding_all rfl
  exact ⟨hp, claim6_missing_profile "s" "d" testNoProfile "sol" 10 (some prevSession100) hp⟩

/-- Claim C7 (code bug): with the resolved `adult_pt_br_general`
profile and a session whose effective reading speed equals the profile
mean of 180 wpm, the computed `z_wpm` is 0, which the source's
`zWpm ? … : undefined` drops, so `z_wpm` is absent even though the
profile resolved — contradicting "absent only when no profile
resolves". -/
theorem claim7_z_wpm_dropped_at_mean :
    findProfile testMeanWpm.normative_profile_id = some profileAdultGeneral ∧
      (scoreSession "s" "d" testMeanWpm "" 5 none).wpm_effective = 180 ∧
      profileAdultGeneral.mean_wpm = 180 ∧
      (scoreSession "s" "d" testMeanWpm "" 5 none).z_wpm = none :=
  ⟨by with_unfolding_all rfl, by with_unfolding_all decide, rfl,
    by with_unfolding_all decide⟩

/-- Claim C8 (amended): the standardized outputs `z_coverage`,
`z_wpm` (when present) and `rci_coverage` (when present) are rounded
to 2 decimal places; `coverage_pct` is reported at full precision (see
the counterexample) and `wpm_effective` is an integer. -/
theorem claim8_reported_precision (sid cat : String) (test : TestInstance) (rt : String)
    (t : ℚ) (prev : Option SessionResult) :
    roundedTo2 (scoreSession sid cat test rt t prev).z_coverage ∧
      (∀ z, (scoreSession sid cat test rt t prev).z_wpm = some z → roundedTo2 z) ∧
      (∀ r, (scoreSession sid cat test rt t prev).rci_coverage = some r → roundedTo2R r) := by
  refine ⟨?_, ?_, ?_⟩
  · rcases hfp : findProfile test.normative_profile_id with - | p <;>
      simp only [scoreSession, hfp] <;> exact roundedTo2_jsToFixed2 _
  · intro z hz
    rcases hfp : findProfile test.normative_profile_id with - | p <;>
        simp only [scoreSession, hfp] at hz
    · exact Option.noConfusion hz
    · split_ifs at hz
      all_goals injection hz with h2
      all_goals subst h2
      all_goals exact roundedTo2_jsToFixed2 _
  · intro r hr
    rcases hfp : findProfile test.normative_profile_id with - | p <;>
        simp only [scoreSession, hfp] at hr
    · exact Option.noConfusion hr
    · rcases prev with - | prevS
      · exact Option.noConfusion hr
      · exact rciField_some_rounded p _ _ r hr

set_option maxRecDepth 8000 in
/-- Witness for C8: the reported `z_coverage` of a concrete session,
1, is a multiple of 1/100. -/
theorem claim8_reported_precision_witness : ∃ n : ℤ, (1 : ℚ) = (n : ℚ) / 100 := by
  have h1 : (scoreSession "s" "d" testFiveKp recallFour 10 none).z_coverage =
      JSNum.num 1 := by
    with_unfolding_all decide
  exact (claim8_reported_precision "s" "d" testFiveKp recallFour 10 none).1 1 h1

set_option maxRecDepth 8000 in
/-- Counterexample to C8 as stated: with one of three keypoints hit,
the reported `coverage_pct` is 100/3, which differs from its 2-decimal
rounding — `coverage_pct` is not rounded for reporting. -/
theorem claim8_coverage_unrounded_counterexample :
    (scoreSession "s" "d" testThreeKp "gato" 10 none).coverage_pct ≠
      jsToFixed2 ((scoreSession "s" "d" testThreeKp "gato" 10 none).coverage_pct) := by
  with_unfolding_all decide

/-- Claim C9 (amended): evaluating a keypoint with an empty token
sequence cannot fail and cannot hit — the evaluator returns
`hit = false` with an empty matched set — but the internal coverage
ratio is the non-finite NaN (JavaScript `0/0`), not the 0 the claim
asserts (see the counterexample). -/
theorem claim9_empty_keypoint (rcl : List String) :
    calculateMatch rcl [] = { hit := false, matched := [] } ∧
      coverageRatioOf rcl [] = JSNum.nan :=
  ⟨rfl, rfl⟩

/-- Counterexample to C9 as stated: on an empty keypoint token
sequence the coverage ratio is NaN, not 0. -/
theorem claim9_ratio_nan_counterexample :
    coverageRatioOf ["abc"] [] ≠ JSNum.num 0 := by decide

/-- Witness for C9 at a concrete recall token sequence. -/
theorem claim9_empty_keypoint_witness :
    calculateMatch ["abc"] [] = { hit := false, matched := [] } ∧
      coverageRatioOf ["abc"] [] = JSNum.nan :=
  claim9_empty_keypoint ["abc"]

/-- Claim C10 (amended): every token produced by the tokenizer
consists only of word characters — ASCII alphanumerics or the
underscore — since the source strips by the regex class `\w`, which
keeps the non-alphanumeric underscore (see the counterexample). -/
theorem claim10_tokens_word_chars (text : String) (lang : Language) (t : String)
    (ht : t ∈ tokenize text lang) (c : Char) (hc : c ∈ t.data) :
    isWordChar c = true := by
  simp only [tokenize] at ht
  have ht2 := (List.mem_filter.mp ht).1
  obtain ⟨cs, hcs, rfl⟩ := List.mem_map.mp ht2
  have hc2 : c ∈ cs := hc
  refine wsSplitAux_chars (fun d => isWordChar d = true)
    (normalizeChars text.data) [] (by simp) ?_ cs hcs c hc2
  intro d hd hdns
  have hmem := (List.mem_filter.mp hd).2
  have hor : isWordChar d = true ∨ isJsSpace d = true := by simpa using hmem
  rcases hor with h | h
  · exact h
  · rw [h] at hdns; cases hdns

/-- Counterexample to C10 as stated: the input `"foo_bar"` tokenizes
to itself, and the underscore it contains is not alphanumeric. -/
theorem claim10_underscore_counterexample :
    "foo_bar" ∈ tokenize "foo_bar" Language.enUS ∧
      '_' ∈ ("foo_bar" : String).data ∧ Char.isAlphanum '_' = false := by decide

/-- Witness for C10: the first character of a concretely produced
token is a word character. -/
theorem claim10_tokens_word_chars_witness :
    ("gato" ∈ tokenize "gato casa" Language.ptBR) ∧ ('g' ∈ ("gato" : String).data) ∧
      isWordChar 'g' = true :=
  ⟨by decide, by decide,
    claim10_tokens_word_chars "gato casa" Language.ptBR "gato" (by decide) 'g' (by decide)⟩

end CogniRead
